import Mathlib

/-!
Verification of the BugWarden / VulnHunter tool-orchestration core.

This file shallowly embeds the data model and the operations of the
repository (the tool adapters in `src/vulnhunter/tools/`, the Docker
sandbox wrapper, and the report aggregation in
`src/vulnhunter/models/report.py`) as executable Lean definitions, and
proves or refutes the frozen claims about them.

Python's `json.loads` is modelled by an executable fuel-based JSON
parser over an inductive `Json` value type.  JSON numbers are restricted
to integers (every numeric field appearing in the tool outputs -
return codes, line numbers - is an integer).  Python runtime errors
(`AttributeError`, `TypeError`, pydantic validation failures) that the
source code catches with broad `except` clauses are modelled by
`Option`-valued functions returning `none` at exactly the spots where
the Python code would raise.
-/

namespace VulnHunter

/-- A JSON value, the result of `json.loads`.  Objects keep their field
list in document order; lookups take the last binding, matching
Python's duplicate-key semantics. -/
inductive Json where
  | null : Json
  | bool (b : Bool) : Json
  | num (n : Int) : Json
  | str (s : String) : Json
  | arr (elems : List Json) : Json
  | obj (fields : List (String × Json)) : Json
deriving Repr

/-- The left-brace character, spelled via its code point. -/
def lbraceChar : Char := Char.ofNat 123

/-- The right-brace character, spelled via its code point. -/
def rbraceChar : Char := Char.ofNat 125

/-- JSON insignificant whitespace. -/
def isWsChar (c : Char) : Bool :=
  c == ' ' || c == '\n' || c == '\t' || c == '\r'

/-- Drop leading JSON whitespace. -/
def skipWs (cs : List Char) : List Char :=
  cs.dropWhile isWsChar

/-- Parse the body of a JSON string literal (the opening quote has been
consumed), handling the escape sequences used by the tool outputs. -/
def parseStrBody (fuel : Nat) (cs : List Char) (acc : List Char) :
    Option (String × List Char) :=
  match fuel, cs with
  | 0, _ => none
  | _, [] => none
  | fuel + 1, c :: rest =>
    if c == '"' then
      some (String.mk acc.reverse, rest)
    else if c == '\\' then
      match rest with
      | [] => none
      | e :: rest2 =>
        let ec : Option Char :=
          if e == '"' then some '"'
          else if e == '\\' then some '\\'
          else if e == '/' then some '/'
          else if e == 'n' then some '\n'
          else if e == 't' then some '\t'
          else if e == 'r' then some '\r'
          else none
        match ec with
        | some d => parseStrBody fuel rest2 (d :: acc)
        | none => none
    else
      parseStrBody fuel rest (c :: acc)

/-- Parse a run of decimal digits into a natural number. -/
def parseDigits (fuel : Nat) (cs : List Char) (acc : Nat) (seen : Bool) :
    Option (Nat × List Char) :=
  match fuel, cs with
  | 0, _ => none
  | _, [] => if seen then some (acc, []) else none
  | fuel + 1, c :: rest =>
    if c.isDigit then
      parseDigits fuel rest (acc * 10 + (c.toNat - '0'.toNat)) true
    else if seen then
      some (acc, c :: rest)
    else
      none

/-- Check that a literal keyword is a prefix of the input and return
the remainder. -/
def expectChars : List Char → List Char → Option (List Char)
  | [], rest => some rest
  | k :: ks, c :: rest => if k == c then expectChars ks rest else none
  | _ :: _, [] => none

mutual

/-- Parse one JSON value.  Fuel strictly decreases on every recursive
call; a fuel of `length + 2` is enough for any parseable document. -/
def parseValue (fuel : Nat) (cs : List Char) : Option (Json × List Char) :=
  match fuel with
  | 0 => none
  | fuel + 1 =>
    match skipWs cs with
    | [] => none
    | c :: rest =>
      if c == '"' then
        match parseStrBody fuel rest [] with
        | some (s, r) => some (.str s, r)
        | none => none
      else if c == lbraceChar then
        parseObjFields fuel rest []
      else if c == '[' then
        parseArrElems fuel rest []
      else if c == 't' then
        (expectChars ['r', 'u', 'e'] rest).map (fun r => (.bool true, r))
      else if c == 'f' then
        (expectChars ['a', 'l', 's', 'e'] rest).map (fun r => (.bool false, r))
      else if c == 'n' then
        (expectChars ['u', 'l', 'l'] rest).map (fun r => (.null, r))
      else if c == '-' then
        match parseDigits fuel rest 0 false with
        | some (n, r) => some (.num (-(n : Int)), r)
        | none => none
      else if c.isDigit then
        match parseDigits fuel (c :: rest) 0 false with
        | some (n, r) => some (.num (n : Int), r)
        | none => none
      else
        none

/-- Parse the fields of a JSON object (opening brace consumed). -/
def parseObjFields (fuel : Nat) (cs : List Char) (acc : List (String × Json)) :
    Option (Json × List Char) :=
  match fuel with
  | 0 => none
  | fuel + 1 =>
    match skipWs cs with
    | [] => none
    | c :: rest =>
      if c == rbraceChar then
        if acc.isEmpty then some (.obj acc.reverse, rest) else none
      else if c == '"' then
        match parseStrBody fuel rest [] with
        | none => none
        | some (k, r1) =>
          match skipWs r1 with
          | ':' :: r2 =>
            match parseValue fuel r2 with
            | none => none
            | some (v, r3) =>
              match skipWs r3 with
              | ',' :: r4 => parseObjFields fuel r4 ((k, v) :: acc)
              | d :: r4 =>
                if d == rbraceChar then some (.obj ((k, v) :: acc).reverse, r4)
                else none
              | [] => none
          | _ => none
      else
        none

/-- Parse the elements of a JSON array (opening bracket consumed). -/
def parseArrElems (fuel : Nat) (cs : List Char) (acc : List Json) :
    Option (Json × List Char) :=
  match fuel with
  | 0 => none
  | fuel + 1 =>
    match skipWs cs with
    | [] => none
    | c :: rest =>
      if c == ']' then
        if acc.isEmpty then some (.arr acc.reverse, rest) else none
      else
        match parseValue fuel (c :: rest) with
        | none => none
        | some (v, r1) =>
          match skipWs r1 with
          | ',' :: r2 => parseArrElems fuel r2 (v :: acc)
          | ']' :: r2 => some (.arr (v :: acc).reverse, r2)
          | _ => none

end

/-- Model of Python's `json.loads`: parse a complete JSON document,
requiring only whitespace after the value. -/
def parseJson (s : String) : Option Json :=
  match parseValue (s.length + 2) s.toList with
  | some (v, rest) => if (skipWs rest).isEmpty then some v else none
  | none => none

/-- Model of Python's `str.strip()`. -/
def pyStrip (s : String) : String :=
  String.mk (((s.toList.dropWhile isWsChar).reverse.dropWhile isWsChar).reverse)

/-- Model of Python's `needle in haystack` substring test. -/
def strHasPrefixL : List Char → List Char → Bool
  | [], _ => true
  | _ :: _, [] => false
  | a :: as, b :: bs => a == b && strHasPrefixL as bs

/-- Model of Python's `needle in haystack` substring test (infix search). -/
def containsSub (hay needle : String) : Bool :=
  go needle.toList hay.toList
where
  go (n : List Char) : List Char → Bool
    | [] => strHasPrefixL n []
    | c :: cs => strHasPrefixL n (c :: cs) || go n cs

/-- Model of `dict.get(k)` on a parsed JSON object: the last binding of
the key wins, as in a Python dict built from a JSON document. -/
def jLookup (fields : List (String × Json)) (k : String) : Option Json :=
  ((fields.filter (fun p => p.1 == k)).getLast?).map (fun p => p.2)

/-- Model of `dict.get(k, default)`. -/
def jLookupD (fields : List (String × Json)) (k : String) (d : Json) : Json :=
  (jLookup fields k).getD d

/-- Python truthiness of a JSON-decoded value. -/
def jTruthy : Json → Bool
  | .null => false
  | .bool b => b
  | .num n => n != 0
  | .str s => s != ""
  | .arr l => !l.isEmpty
  | .obj f => !f.isEmpty

/-- Model of `dict[k] = v` on a decoded JSON object: appending a new
binding; lookups take the last binding, so this observes like a dict
update. -/
def jSetKey (fields : List (String × Json)) (k : String) (v : Json) :
    List (String × Json) :=
  fields ++ [(k, v)]

/-- Read a field expected to hold a string, with a default when the
field is absent (models `d.get(k, default)` used in a string position;
a non-string value would make the downstream `Finding` construction
raise, which the callers surface as a parse failure). -/
def jStrField (fields : List (String × Json)) (k : String) (d : String) :
    Option String :=
  match jLookup fields k with
  | none => some d
  | some (.str s) => some s
  | some _ => none

/-- Vulnerability severity levels, from
`src/vulnhunter/config/settings.py` (`SeverityLevel`). -/
inductive SeverityLevel where
  | critical | high | medium | low | info
deriving DecidableEq, Repr

/-- Modelled from the spec: the closed `VulnerabilityType` enumeration of
`vulnhunter/models/vulnerability.py`, a file absent from `src/`; the
constructor set is the union of the spec's §3 list and the members the
adapters in `src/` reference (`UNEXPECTED_ETHER` appears only in
`slither.py`). -/
inductive VulnerabilityType where
  | reentrancy
  | integer_overflow
  | integer_underflow
  | unprotected_ether
  | unexpected_ether
  | unprotected_selfdestruct
  | unchecked_call
  | unchecked_send
  | access_control
  | delegatecall
  | timestamp_dependence
  | weak_randomness
  | dos_gas_limit
  | logic_error
  | shadowing
  | floating_pragma
  | outdated_compiler
  | unknown
deriving DecidableEq, Repr

/-- Modelled from the spec: `VulnerabilityLocation` of
`vulnhunter/models/vulnerability.py` (absent from `src/`), the shape
the adapters construct - file path, start line, end line, snippet. -/
structure VulnerabilityLocation where
  file_path : String
  start_line : Int
  end_line : Int
  code_snippet : String
deriving DecidableEq, Repr

/-- Modelled from the spec: `Finding` of
`vulnhunter/models/vulnerability.py` (absent from `src/`), one
normalized observation from one tool, with the fields the adapters
populate.  `raw_output` holds the decoded tool-specific payload. -/
structure Finding where
  tool : String
  title : String
  description : String
  vulnerability_type : VulnerabilityType
  severity : SeverityLevel
  confidence : ℚ
  location : Option VulnerabilityLocation
  raw_output : List (String × Json)
deriving Repr

/-- Status of tool execution, from `src/vulnhunter/tools/base.py`
(`ToolStatus`). -/
inductive ToolStatus where
  | success | failed | timeout | error
deriving DecidableEq, Repr

/-- Result from a tool execution, from `src/vulnhunter/tools/base.py`
(`ToolResult`).  Wall-clock execution time is abstracted to zero. -/
structure ToolResult where
  tool_name : String
  status : ToolStatus
  findings : List Finding
  execution_time : ℚ := 0
  raw_output : Option String := none
  error_message : Option String := none
deriving Repr

/-! ## The sandbox executor (`src/vulnhunter/tools/docker_wrapper.py`)

`DockerToolWrapper` state and operations.  An external tool invocation
is abstracted as an `ExecOutcome`: the subprocess either completed with
`(stdout, stderr, returncode)`, hit the `asyncio` timeout, or raised
some other exception (docker missing, etc.). -/

/-- Outcome of the underlying `docker run` subprocess awaited by
`run_in_container`. -/
inductive ExecOutcome where
  | completed (stdout stderr : String) (rc : Int)
  | timedOut
  | raised (msg : String)
deriving DecidableEq, Repr

/-- What `run_in_container` does with the subprocess outcome: either a
normal return of `(stdout, stderr, returncode)` or a raised
`TimeoutError` (a condition distinct from any exit code), or the
propagation of an unexpected exception. -/
inductive RunResult where
  | ok (stdout stderr : String) (rc : Int)
  | timeoutRaised (msg : String)
  | otherRaised (msg : String)
deriving DecidableEq, Repr

/-- Mutable state of a `DockerToolWrapper`
(`DockerToolWrapper.__init__`): `_container_id` starts out `None`. -/
structure DockerWrapperState where
  tool_name : String
  docker_image : String
  container_name : String
  container_id : Option String := none
  initialized : Bool := false
  timeoutSecs : Int := 300
deriving DecidableEq, Repr

/-- `DockerToolWrapper.__init__`: construct the wrapper state with a
unique container name and `_container_id = None`. -/
def mkDockerWrapper (tool_name docker_image unique_id : String) :
    DockerWrapperState :=
  { tool_name := tool_name
    docker_image := docker_image
    container_name := "vulnhunter-" ++ tool_name ++ "-" ++ unique_id }

/-- The `docker run` command vector assembled by `run_in_container`
(volume mounts read-only, resource caps, privileges dropped, network
disabled unless enabled). -/
def dockerRunCmd (w : DockerWrapperState) (contractPath workingDir : String)
    (networkEnabled : Bool) (command : List String) : List String :=
  ["docker", "run", "--rm", "--name", w.container_name, "-w", workingDir] ++
  ["-v", contractPath ++ ":/contracts:ro"] ++
  ["--memory", "4096m", "--cpus", "2"] ++
  ["--security-opt", "no-new-privileges", "--cap-drop", "ALL"] ++
  (if networkEnabled then [] else ["--network", "none"]) ++
  [w.docker_image] ++ command

/-- `DockerToolWrapper.run_in_container`: run the docker command and,
on `asyncio.TimeoutError`, kill the named container and raise a
`TimeoutError`.  Returns the list of docker commands issued together
with the outcome; the wrapper state is not modified by this method. -/
def runInContainer (w : DockerWrapperState) (contractPath workingDir : String)
    (networkEnabled : Bool) (command : List String) (exec : ExecOutcome) :
    List (List String) × RunResult :=
  let runCmd := dockerRunCmd w contractPath workingDir networkEnabled command
  match exec with
  | .completed o e rc => ([runCmd], .ok o e rc)
  | .timedOut =>
      ([runCmd, ["docker", "kill", w.container_name]],
       .timeoutRaised ("Tool " ++ w.tool_name ++ " timed out after " ++
         toString w.timeoutSecs ++ "s"))
  | .raised msg => ([runCmd], .otherRaised msg)

/-- `DockerToolWrapper.initialize`: pulls the image if needed and sets
`_initialized`; `_container_id` is not touched. -/
def wrapperInitialize (w : DockerWrapperState) : DockerWrapperState :=
  { w with initialized := true }

/-- `DockerToolWrapper.cleanup`: stop and remove the container only if
`_container_id` is set, then reset it; otherwise do nothing.  Returns
the docker commands issued and the new state. -/
def wrapperCleanup (w : DockerWrapperState) :
    List (List String) × DockerWrapperState :=
  match w.container_id with
  | some cid =>
      ([["docker", "stop", cid], ["docker", "rm", cid]],
       { w with container_id := none })
  | none => ([], w)

/-- A Python `for` loop that appends one result per element and whose
body may raise (`none` aborts the whole loop, as an exception caught
outside it would). -/
def optionMapList (f : α → Option β) : List α → Option (List β)
  | [] => some []
  | a :: l =>
    match f a with
    | none => none
    | some b => (optionMapList f l).map (b :: ·)

/-! ## Slither adapter (`src/vulnhunter/tools/slither.py`) -/

/-- Python exceptions escaping a method are modelled explicitly: `ret`
is a normal return, `exc` an uncaught exception propagating to the
caller's `except Exception` handler. -/
inductive PyResult (α : Type) where
  | ret (a : α)
  | exc (msg : String)
deriving Repr

/-- The fixed Slither detector-id table (`self.detector_mapping`);
`none` means the detector id is absent from the table. -/
def slitherDetectorTable : String → Option VulnerabilityType
  | "reentrancy-eth" => some .reentrancy
  | "reentrancy-no-eth" => some .reentrancy
  | "reentrancy-benign" => some .reentrancy
  | "reentrancy-events" => some .reentrancy
  | "reentrancy-unlimited-gas" => some .reentrancy
  | "unprotected-upgrade" => some .access_control
  | "suicidal" => some .unprotected_selfdestruct
  | "unchecked-transfer" => some .unchecked_call
  | "unchecked-lowlevel" => some .unchecked_call
  | "unchecked-send" => some .unchecked_send
  | "arbitrary-send" => some .unprotected_ether
  | "controlled-delegatecall" => some .delegatecall
  | "delegatecall-loop" => some .delegatecall
  | "timestamp" => some .timestamp_dependence
  | "weak-prng" => some .weak_randomness
  | "divide-before-multiply" => some .integer_overflow
  | "locked-ether" => some .unexpected_ether
  | "tx-origin" => some .access_control
  | "shadowing-state" => some .shadowing
  | "incorrect-equality" => some .logic_error
  | "uninitialized-state" => some .logic_error
  | "uninitialized-storage" => some .logic_error
  | "uninitialized-local" => some .logic_error
  | "pragma" => some .floating_pragma
  | "solc-version" => some .outdated_compiler
  | _ => none

/-- The fixed SWC cross-reference table of the Slither adapter
(`self.swc_mapping`). -/
def slitherSwcTable : VulnerabilityType → Option String
  | .reentrancy => some "SWC-107"
  | .integer_overflow => some "SWC-101"
  | .integer_underflow => some "SWC-101"
  | .unprotected_selfdestruct => some "SWC-106"
  | .unprotected_ether => some "SWC-105"
  | .unchecked_call => some "SWC-104"
  | .floating_pragma => some "SWC-103"
  | .outdated_compiler => some "SWC-102"
  | .delegatecall => some "SWC-112"
  | .weak_randomness => some "SWC-120"
  | .timestamp_dependence => some "SWC-116"
  | .shadowing => some "SWC-119"
  | .unchecked_send => some "SWC-113"
  | .access_control => some "SWC-115"
  | _ => none

/-- `SlitherWrapper._map_severity`: Slither impact to `SeverityLevel`,
defaulting to medium. -/
def slitherMapSeverity : String → SeverityLevel
  | "High" => .high
  | "Medium" => .medium
  | "Low" => .low
  | "Informational" => .info
  | "Optimization" => .info
  | _ => .medium

/-- `SlitherWrapper._confidence_to_score`: Slither confidence label to
a numeric score, defaulting to 0.7. -/
def slitherConfidenceScore : String → ℚ
  | "High" => 9 / 10
  | "Medium" => 7 / 10
  | "Low" => 1 / 2
  | _ => 7 / 10

/-- Location extraction from a Slither detector entry (the
`elements` / `source_mapping` / `lines` block of
`SlitherWrapper._parse_output`).  `some none` is "no location",
`none` models a raised exception (non-dict element, non-list `lines`,
non-integer line) caught by the enclosing `except`. -/
def slitherLocOf (fields : List (String × Json)) :
    Option (Option VulnerabilityLocation) :=
  match jLookupD fields "elements" (.arr []) with
  | .arr [] => some none
  | .arr (e :: _) =>
    match e with
    | .obj ef =>
      match jLookupD ef "source_mapping" (.obj []) with
      | .obj [] => some none
      | .obj smf =>
        match jStrField smf "filename" "", jStrField ef "source" "" with
        | some fp, some snip =>
          match jLookup smf "lines" with
          | none => some (some ⟨fp, 0, 0, snip⟩)
          | some lv =>
            if jTruthy lv then
              match lv with
              | .arr ls =>
                match ls.head?, ls.getLast? with
                | some (.num a), some (.num b) => some (some ⟨fp, a, b, snip⟩)
                | _, _ => none
              | _ => none
            else some (some ⟨fp, 0, 0, snip⟩)
        | _, _ => none
      | sm => if jTruthy sm then none else some none
    | _ => none
  | j => if jTruthy j then none else some none

/-- One iteration of the detector loop of
`SlitherWrapper._parse_output`: build one `Finding` from one detector
entry.  `none` models an exception raised mid-loop (non-dict detector,
non-string field) and caught by the enclosing `except`. -/
def slitherFindingOfDetector (d : Json) : Option Finding :=
  match d with
  | .obj fields =>
    match jStrField fields "check" "unknown", jStrField fields "impact" "Medium",
          jStrField fields "confidence" "Medium",
          jStrField fields "description" "",
          jStrField fields "check" "Unknown Issue", slitherLocOf fields with
    | some check, some impact, some conf, some desc, some title, some loc =>
      let vulnType := (slitherDetectorTable check).getD .unknown
      some { tool := "slither"
             title := title
             description := desc
             vulnerability_type := vulnType
             severity := slitherMapSeverity impact
             confidence := slitherConfidenceScore conf
             location := loc
             raw_output :=
               match slitherSwcTable vulnType with
               | some sid => jSetKey fields "swc_id" (.str sid)
               | none => fields }
    | _, _, _, _, _, _ => none
  | _ => none

/-- `SlitherWrapper._parse_output`: parse (what is expected to be) the
Slither JSON document into findings.  The method first re-unwraps the
value as wrapper JSON (`status` / `stdout` keys) a second time.
Returns `some findings` for a normal return, `none` for the `None`
returns (parse failure or an exception caught by the `except`
clauses). -/
def slitherParseOutput (output : Json) : Option (List Finding) :=
  match output with
  | .str s =>
    if pyStrip s == "" then some []
    else
      match s.toList.dropWhile (fun c => !(c == lbraceChar)) with
      | [] => some []
      | jsonChars =>
        match parseJson (String.mk jsonChars) with
        | none => none
        | some (.obj wf) =>
          match jLookup wf "status" with
          | some (.str "success") =>
            match jLookupD wf "stdout" (.str "") with
            | .str so =>
              if pyStrip so == "" then some []
              else
                match parseJson so with
                | none => none
                | some (.obj df) =>
                  if jTruthy (jLookupD df "success" (.bool false)) then
                    match jLookupD df "results" (.obj []) with
                    | .obj rf =>
                      match jLookupD rf "detectors" (.arr []) with
                      | .arr ds => optionMapList slitherFindingOfDetector ds
                      | _ => none
                    | _ => none
                  else none
                | some _ => none
            | _ => none
          | _ => some []
        | some _ => none
  | _ => none

/-- `SlitherWrapper._parse_wrapper_output`: decode the sandbox
wrapper's JSON envelope.  A `json.JSONDecodeError` is caught and
yields `[]`; a decoded non-dict makes the `.get` call raise an
`AttributeError` that is NOT caught here and escapes to `analyze`. -/
def slitherParseWrapperOutput (stdout : String) :
    PyResult (Option (List Finding)) :=
  match parseJson stdout with
  | none => .ret (some [])
  | some (.obj wf) =>
    match jLookup wf "status" with
    | some (.str "success") =>
        .ret (slitherParseOutput (jLookupD wf "stdout" (.str "")))
    | _ => .ret (some [])
  | some _ => .exc "AttributeError"

/-- `SlitherWrapper.analyze`, classification of one sandboxed run.
The run outcome is the `RunResult` produced by `run_in_container`;
the `TimeoutError` it raises is caught and classified `timeout`, any
other exception is caught and classified `error`. -/
def slitherAnalyze (run : RunResult) : ToolResult :=
  match run with
  | .ok stdout stderr _rc =>
    match slitherParseWrapperOutput stdout with
    | .exc msg =>
        { tool_name := "slither", status := .error, findings := []
          error_message := some ("Slither analysis failed: " ++ msg) }
    | .ret (some findings) =>
        { tool_name := "slither", status := .success, findings := findings
          raw_output := some stdout }
    | .ret none =>
        if stdout != "" &&
            (containsSub stdout "success" || containsSub stdout "detectors") then
          { tool_name := "slither", status := .success, findings := []
            raw_output := some stdout }
        else
          { tool_name := "slither", status := .error, findings := []
            error_message := some ("Failed to parse Slither output. Stderr: " ++
              stderr.take 200)
            raw_output := some stdout }
  | .timeoutRaised msg =>
      { tool_name := "slither", status := .timeout, findings := []
        error_message := some msg }
  | .otherRaised msg =>
      { tool_name := "slither", status := .error, findings := []
        error_message := some ("Slither analysis failed: " ++ msg) }

/-! ## Mythril adapter (`src/vulnhunter/tools/mythril.py`) -/

/-- The fixed Mythril SWC-id table (`self.swc_to_vuln_type`). -/
def mythrilSwcTable : String → Option VulnerabilityType
  | "SWC-101" => some .integer_overflow
  | "SWC-104" => some .unchecked_call
  | "SWC-105" => some .unprotected_ether
  | "SWC-106" => some .unprotected_selfdestruct
  | "SWC-107" => some .reentrancy
  | "SWC-110" => some .logic_error
  | "SWC-112" => some .delegatecall
  | "SWC-113" => some .unchecked_send
  | "SWC-115" => some .access_control
  | "SWC-116" => some .timestamp_dependence
  | "SWC-120" => some .weak_randomness
  | "SWC-124" => some .access_control
  | "SWC-128" => some .dos_gas_limit
  | _ => none

/-- `MythrilWrapper._map_severity`, defaulting to medium. -/
def mythrilMapSeverity : String → SeverityLevel
  | "High" => .high
  | "Medium" => .medium
  | "Low" => .low
  | "Informational" => .info
  | _ => .medium

/-- The `issue.get("swc-id") or issue.get("swcID") or ""` chain
(Python `or` takes the first truthy value). -/
def mythrilSwcOf (f : List (String × Json)) : Json :=
  let a := jLookupD f "swc-id" .null
  if jTruthy a then a
  else
    let b := jLookupD f "swcID" .null
    if jTruthy b then b else .str ""

/-- One iteration of the issue loop of `MythrilWrapper._parse_output`
for a dict issue; `none` models an exception (unhashable SWC value in
the table lookup, non-string text field, non-integer line number)
caught by the enclosing `except`. -/
def mythrilFindingOfIssue (f : List (String × Json)) : Option Finding :=
  let swcJ := mythrilSwcOf f
  match swcJ with
  | .arr _ => none
  | .obj _ => none
  | _ =>
    let vulnType :=
      match swcJ with
      | .str s => (mythrilSwcTable s).getD .unknown
      | _ => .unknown
    match jStrField f "title" "Unknown Issue", jStrField f "description" "",
          jStrField f "severity" "Medium", jStrField f "filename" "",
          jStrField f "code" "" with
    | some title, some desc, some sev, some fp, some code =>
      let lineno := jLookupD f "lineno" (.num 0)
      let loc? : Option (Option VulnerabilityLocation) :=
        if jTruthy lineno then
          match lineno with
          | .num n => some (some ⟨fp, n, n, code⟩)
          | _ => none
        else some none
      match loc? with
      | none => none
      | some loc =>
        some { tool := "mythril"
               title := title
               description := desc
               vulnerability_type := vulnType
               severity := mythrilMapSeverity sev
               confidence := 8 / 10
               location := loc
               raw_output := jSetKey f "swc_id" swcJ }
    | _, _, _, _, _ => none

/-- The issue loop of `MythrilWrapper._parse_output`: non-dict entries
are skipped by the `isinstance` guard (`continue`); an exception on a
dict entry aborts the whole parse. -/
def mythrilFindingsOfIssues : List Json → Option (List Finding)
  | [] => some []
  | i :: rest =>
    match i with
    | .obj f =>
      match mythrilFindingOfIssue f with
      | none => none
      | some fd => (mythrilFindingsOfIssues rest).map (fd :: ·)
    | _ => mythrilFindingsOfIssues rest

/-- Python iteration over the extracted `issues` value: a list yields
its elements; strings and dicts iterate to values the `isinstance`
guard skips; anything else raises `TypeError` (caught, yielding the
`None` return). -/
def mythrilIssuesIter : Json → Option (List Json)
  | .arr l => some l
  | .str _ => some []
  | .obj _ => some []
  | _ => none

/-- `MythrilWrapper._parse_output`: parse the (expected) Mythril JSON
document into findings; `some` is a normal return, `none` the `None`
returns. -/
def mythrilParseOutput (output : Json) : Option (List Finding) :=
  match output with
  | .str s =>
    if pyStrip s == "" then some []
    else
      match parseJson s with
      | none => none
      | some data =>
        match data with
        | .obj df =>
          match jLookup df "issues" with
          | some iv => (mythrilIssuesIter iv).bind mythrilFindingsOfIssues
          | none =>
            match jLookup df "results" with
            | some rv => (mythrilIssuesIter rv).bind mythrilFindingsOfIssues
            | none => some []
        | .arr l => mythrilFindingsOfIssues l
        | _ => none
  | _ => none

/-- `MythrilWrapper._parse_wrapper_output`: decode the sandbox
wrapper's JSON envelope; `JSONDecodeError` is caught and yields `[]`,
a decoded non-dict raises out of the method. -/
def mythrilParseWrapperOutput (stdout : String) :
    PyResult (Option (List Finding)) :=
  match parseJson stdout with
  | none => .ret (some [])
  | some (.obj wf) =>
    match jLookup wf "status" with
    | some (.str "success") =>
        .ret (mythrilParseOutput (jLookupD wf "stdout" (.str "")))
    | _ => .ret (some [])
  | some _ => .exc "AttributeError"

/-- The contract path handed to an adapter: either a single file or a
directory with the source files its discovery heuristic finds. -/
inductive TargetPath where
  | file (name : String)
  | dir (solFiles : List String)
deriving DecidableEq, Repr

/-- The run-classification of `MythrilWrapper.analyze` (the body of
its `try` after the source discovery): parse the wrapper output,
fall back to the completion marker in stderr for a clean exit, and
catch the timeout and generic exceptions. -/
def mythrilClassify (run : RunResult) : ToolResult :=
  match run with
    | .ok stdout stderr rc =>
      match mythrilParseWrapperOutput stdout with
      | .exc msg =>
          { tool_name := "mythril", status := .error, findings := []
            error_message := some ("Mythril analysis failed: " ++ msg) }
      | .ret (some findings) =>
          { tool_name := "mythril", status := .success, findings := findings
            raw_output := some stdout }
      | .ret none =>
          if rc == 0 &&
              containsSub stderr "The analysis was completed successfully" then
            { tool_name := "mythril", status := .success, findings := []
              raw_output := some stdout }
          else
            { tool_name := "mythril", status := .error, findings := []
              error_message := some ("Mythril analysis failed. Stderr: " ++
                stderr.take 500)
              raw_output := some stdout }
    | .timeoutRaised msg =>
        { tool_name := "mythril", status := .timeout, findings := []
          error_message := some msg }
    | .otherRaised msg =>
        { tool_name := "mythril", status := .error, findings := []
          error_message := some ("Mythril analysis failed: " ++ msg) }

/-- `MythrilWrapper.analyze`: a directory without Solidity files is an
error before any sandboxed run; otherwise classify the run outcome. -/
def mythrilAnalyze (target : TargetPath) (run : RunResult) : ToolResult :=
  match target with
  | .dir [] =>
      { tool_name := "mythril", status := .error, findings := []
        error_message := some "No Solidity files found in directory" }
  | _ => mythrilClassify run

/-! ## Echidna adapter (`src/vulnhunter/tools/echidna.py`) -/

/-- The keyword table mapping Echidna property names to vulnerability
types (`self.property_to_vuln_type`), in dict insertion order - the
first keyword contained in the lowercased property name wins. -/
def echidnaKeywordTable : List (String × VulnerabilityType) :=
  [("balance", .unprotected_ether),
   ("theft", .unprotected_ether),
   ("reentrancy", .reentrancy),
   ("overflow", .integer_overflow),
   ("underflow", .integer_underflow),
   ("access", .access_control),
   ("dos", .dos_gas_limit)]

/-- Model of Python's `str.lower()` (ASCII case folding suffices for
the property names involved). -/
def pyToLower (s : String) : String :=
  String.mk (s.toList.map Char.toLower)

/-- Model of Python's `str.replace(old, new)` with an empty
replacement: drop every occurrence of `pat`, scanning left to right. -/
def strDropAllF (fuel : Nat) (pat : List Char) (cs : List Char) : List Char :=
  match fuel with
  | 0 => cs
  | fuel + 1 =>
    match cs with
    | [] => []
    | c :: rest =>
      match expectChars pat (c :: rest) with
      | some r => strDropAllF fuel pat r
      | none => c :: strDropAllF fuel pat rest

/-- Model of Python's `s.replace(pat, "")`. -/
def strDropAll (s pat : String) : String :=
  String.mk (strDropAllF (s.length + 1) pat.toList s.toList)

/-- Look up the vulnerability type of a property name: first keyword
(in table order) occurring in the lowercased name, else `unknown`. -/
def echidnaVulnTypeOf (propertyName : String) : VulnerabilityType :=
  match echidnaKeywordTable.find?
      (fun p => containsSub (pyToLower propertyName) p.1) with
  | some p => p.2
  | none => .unknown

/-- A regex word character (`\w`). -/
def isWordChar (c : Char) : Bool :=
  c.isAlphanum || c == '_'

/-- A regex whitespace character (`\s`). -/
def isSpaceChar (c : Char) : Bool :=
  c == ' ' || c == '\t' || c == '\n' || c == '\r' ||
  c == Char.ofNat 11 || c == Char.ofNat 12

/-- Case-insensitive literal match (the patterns are compiled with
`re.IGNORECASE`): consume `pat` from the front of `cs`. -/
def matchLitCI : List Char → List Char → Option (List Char)
  | [], rest => some rest
  | p :: ps, c :: rest => if c.toLower == p then matchLitCI ps rest else none
  | _ :: _, [] => none

/-- Try the pattern `echidna_(\w+):\s*failed` at the current position:
on success return the captured property name and the remainder after
the match. -/
def matchFailedProp (cs : List Char) : Option (String × List Char) :=
  match matchLitCI "echidna_".toList cs with
  | none => none
  | some r1 =>
    let word := r1.takeWhile isWordChar
    if word.isEmpty then none
    else
      match r1.dropWhile isWordChar with
      | ':' :: r2 =>
        match matchLitCI "failed".toList (r2.dropWhile isSpaceChar) with
        | some r3 => some (String.mk word, r3)
        | none => none
      | _ => none

/-- `finditer` for the failing-property pattern: non-overlapping
matches, scanning left to right.  Fuel-based recursion; every step
consumes at least one character, so a fuel of `length + 1` is exact. -/
def findFailedPropsF (fuel : Nat) (cs : List Char) : List String :=
  match fuel with
  | 0 => []
  | fuel + 1 =>
    match cs with
    | [] => []
    | c :: rest =>
      match matchFailedProp (c :: rest) with
      | some (name, r) => name :: findFailedPropsF fuel r
      | none => findFailedPropsF fuel rest

/-- `finditer` for the failing-property pattern over a string. -/
def findFailedProps (s : String) : List String :=
  findFailedPropsF (s.length + 1) s.toList

/-- Try the pattern `Assertion failed.*?at\s+([^:]+):(\d+)` at the
current position (the `.` of the lazy gap does not match a newline):
return the two captures and the remainder after the match. -/
def matchAssertTail : List Char → Option (String × Int × List Char)
  | [] => none
  | c :: cs =>
    if c == '\n' then none
    else
      match matchLitCI "at".toList (c :: cs) with
      | some r1 =>
        if (r1.takeWhile isSpaceChar).isEmpty then matchAssertTail cs
        else
          let r2 := r1.dropWhile isSpaceChar
          let fileChars := r2.takeWhile (fun d => !(d == ':'))
          if fileChars.isEmpty then matchAssertTail cs
          else
            match r2.dropWhile (fun d => !(d == ':')) with
            | ':' :: r3 =>
              let digits := r3.takeWhile Char.isDigit
              if digits.isEmpty then matchAssertTail cs
              else
                match parseDigits (digits.length + 1) digits 0 false with
                | some (n, _) =>
                    some (String.mk fileChars, (n : Int),
                          r3.dropWhile Char.isDigit)
                | none => matchAssertTail cs
            | _ => matchAssertTail cs
      | none => matchAssertTail cs

/-- `finditer` for the assertion-failure pattern (fuel-based, fuel
`length + 1` is exact as every step consumes a character). -/
def findAssertFailuresF (fuel : Nat) (cs : List Char) : List (String × Int) :=
  match fuel with
  | 0 => []
  | fuel + 1 =>
    match cs with
    | [] => []
    | c :: rest =>
      match matchLitCI "assertion failed".toList (c :: rest) with
      | some r1 =>
        match matchAssertTail r1 with
        | some (fp, n, r2) => (fp, n) :: findAssertFailuresF fuel r2
        | none => findAssertFailuresF fuel rest
      | none => findAssertFailuresF fuel rest

/-- `finditer` for the assertion-failure pattern over a string. -/
def findAssertFailures (s : String) : List (String × Int) :=
  findAssertFailuresF (s.length + 1) s.toList

/-- A finding synthesized from a violated `echidna_` property in the
text output (no location - Echidna does not localize). -/
def echidnaPropFinding (propertyName : String) : Finding :=
  { tool := "echidna"
    title := "Property Violation: echidna_" ++ propertyName
    description := "Echidna found inputs that violate the property " ++
      "'echidna_" ++ propertyName ++ "'. This indicates a potential " ++
      "vulnerability where the expected invariant can be broken."
    vulnerability_type := echidnaVulnTypeOf propertyName
    severity := .high
    confidence := 9 / 10
    location := none
    raw_output := [("property", .str propertyName), ("status", .str "failed")] }

/-- A finding synthesized from an assertion failure with an embedded
location. -/
def echidnaAssertFinding (fp : String) (line : Int) : Finding :=
  { tool := "echidna"
    title := "Assertion Failure"
    description := "Echidna triggered an assertion failure, indicating " ++
      "a contract invariant was violated."
    vulnerability_type := .logic_error
    severity := .high
    confidence := 9 / 10
    location := some ⟨fp, line, line, ""⟩
    raw_output := [("type", .str "assertion_failure"), ("line", .num line)] }

/-- One entry of the `tests` mapping in `EchidnaWrapper._parse_json_output`:
synthesize a finding when the test failed.  `none` models an
`AttributeError` on a non-dict test result (the counterexample text of
the description is abstracted away). -/
def echidnaJsonTestFinding (testName : String) (v : Json) :
    Option (Option Finding) :=
  match v with
  | .obj vf =>
    let failed :=
      (match jLookup vf "status" with
       | some (.str "failed") => true
       | _ => false) ||
      (match jLookup vf "passed" with
       | some (.bool false) => true
       | some (.num 0) => true
       | _ => false)
    if failed then
      let propertyName := strDropAll testName "echidna_"
      some (some
        { tool := "echidna"
          title := "Property Violation: " ++ testName
          description := "Echidna found inputs that violate the property '" ++
            testName ++ "'."
          vulnerability_type := echidnaVulnTypeOf propertyName
          severity := .high
          confidence := 9 / 10
          location := none
          raw_output := vf })
    else some none
  | _ => none

/-- `EchidnaWrapper._parse_json_output`: walk the `tests` mapping and
collect one finding per failed test.  A top-level value without a
`tests` member yields no findings; a membership test on a
non-container raises. -/
def echidnaParseJsonOutput (data : Json) : Option (List Finding) :=
  match data with
  | .obj df =>
    match jLookup df "tests" with
    | none => some []
    | some (.obj tests) =>
        (optionMapList (fun p => echidnaJsonTestFinding p.1 p.2) tests).map
          (fun l => l.filterMap id)
    | some _ => none
  | .arr _ => some []
  | .str s => if containsSub s "tests" then none else some []
  | _ => none

/-- `EchidnaWrapper._parse_output`: structured parse first (when the
stripped stdout starts with a brace and decodes), otherwise the
pattern-based text fallback over `stdout + "\n" + stderr`. -/
def echidnaParseOutput (stdoutJ stderrJ : Json) : Option (List Finding) :=
  match stdoutJ, stderrJ with
  | .str so, .str se =>
    let structured : Option (Option (List Finding)) :=
      if pyStrip so != "" &&
          (match (pyStrip so).toList with
           | c :: _ => c == lbraceChar
           | [] => false) then
        match parseJson so with
        | some data => some (echidnaParseJsonOutput data)
        | none => none
      else none
    match structured with
    | some r => r
    | none =>
      let fullOutput := so ++ "\n" ++ se
      some ((findFailedProps fullOutput).map echidnaPropFinding ++
            (findAssertFailures fullOutput).map
              (fun p => echidnaAssertFinding p.1 p.2))
  | _, _ => none

/-- `EchidnaWrapper._parse_wrapper_output`: decode the sandbox
wrapper's JSON envelope; `JSONDecodeError` is caught and yields `[]`,
a decoded non-dict raises out of the method. -/
def echidnaParseWrapperOutput (stdout : String) :
    PyResult (Option (List Finding)) :=
  match parseJson stdout with
  | none => .ret (some [])
  | some (.obj wf) =>
    match jLookup wf "status" with
    | some (.str "success") =>
        .ret (echidnaParseOutput (jLookupD wf "stdout" (.str ""))
                                 (jLookupD wf "stderr" (.str "")))
    | _ => .ret (some [])
  | some _ => .exc "AttributeError"

/-- The run-classification of `EchidnaWrapper.analyze` (the body of
its `try` after the test-contract discovery); Echidna's non-zero exit
on property violations is not an error. -/
def echidnaClassify (run : RunResult) : ToolResult :=
  match run with
    | .ok stdout stderr _rc =>
      match echidnaParseWrapperOutput stdout with
      | .exc msg =>
          { tool_name := "echidna", status := .error, findings := []
            error_message := some ("Echidna analysis failed: " ++ msg) }
      | .ret (some findings) =>
          { tool_name := "echidna", status := .success, findings := findings
            raw_output := some (stdout ++ "\n" ++ stderr) }
      | .ret none =>
          { tool_name := "echidna", status := .error, findings := []
            error_message := some ("Echidna analysis failed. Stderr: " ++
              stderr.take 500)
            raw_output := some (stdout ++ "\n" ++ stderr) }
    | .timeoutRaised msg =>
        { tool_name := "echidna", status := .timeout, findings := []
          error_message := some msg }
    | .otherRaised msg =>
        { tool_name := "echidna", status := .error, findings := []
          error_message := some ("Echidna analysis failed: " ++ msg) }

/-- `EchidnaWrapper.analyze`: a directory without `Test*.sol` contracts
is an error before any sandboxed run; otherwise classify the run
outcome. -/
def echidnaAnalyze (target : TargetPath) (run : RunResult) : ToolResult :=
  match target with
  | .dir [] =>
      { tool_name := "echidna", status := .error, findings := []
        error_message := some ("No Echidna test contracts found " ++
          "(Test*.sol with echidna_ properties)") }
  | _ => echidnaClassify run

/-! ## Report aggregation (`src/vulnhunter/models/report.py`,
`src/vulnhunter/core/pipeline.py`) -/

/-- Modelled from the spec: a report-level `Vulnerability`
(`vulnhunter/models/vulnerability.py` is absent from `src/`), carrying
the fields the aggregation in `report.py` reads - severity, confidence
in [0,1], vulnerability type and optional SWC cross-reference id. -/
structure Vulnerability where
  title : String
  severity : SeverityLevel
  confidence : ℚ
  vulnerability_type : VulnerabilityType
  swc_id : Option String
deriving DecidableEq, Repr

/-- Status of an analysis run, from `report.py` (`AnalysisStatus`). -/
inductive AnalysisStatus where
  | pending | running | completed | failed | timeout | cancelled
deriving DecidableEq, Repr

/-- Metrics of an analysis, from `report.py` (`AnalysisMetrics`),
restricted to the finding-derived fields; the count dicts are modelled
as count functions. -/
structure AnalysisMetrics where
  total_vulnerabilities : Nat := 0
  by_severity : SeverityLevel → Nat := fun _ => 0
  by_type : VulnerabilityType → Nat := fun _ => 0
  by_swc : String → Nat := fun _ => 0

/-- An analysis report, from `report.py` (`AnalysisReport`), restricted
to the fields the claims mention. -/
structure AnalysisReport where
  contract_name : String
  status : AnalysisStatus := .pending
  vulnerabilities : List Vulnerability := []
  metrics : AnalysisMetrics := {}

/-- The per-severity weights of `AnalysisReport.calculate_risk_score`
(`severity_weights`). -/
def severityWeight : SeverityLevel → ℚ
  | .critical => 10
  | .high => 15 / 2
  | .medium => 5
  | .low => 5 / 2
  | .info => 1 / 2

/-- `AnalysisReport.calculate_risk_score`: 0 with no vulnerabilities,
otherwise the confidence-weighted severity sum normalized to [0,10]
and clamped at 10. -/
def calculateRiskScore (vulns : List Vulnerability) : ℚ :=
  if vulns.isEmpty then 0
  else
    let totalScore :=
      (vulns.map (fun v => severityWeight v.severity * v.confidence)).sum
    let maxPossible : ℚ := (vulns.length : ℚ) * 10
    if 0 < maxPossible then min 10 (totalScore / maxPossible * 10) else 0

/-- Modelled from the spec: the Report Aggregator's metrics computation
(§4.4) - counts grouped by severity, by vulnerability type and by SWC
cross-reference id.  The orchestration pipeline in `src/` is a
placeholder, so the computation itself is not in `src/`. -/
def computeMetrics (vulns : List Vulnerability) : AnalysisMetrics :=
  { total_vulnerabilities := vulns.length
    by_severity := fun s => vulns.countP (fun v => v.severity == s)
    by_type := fun t => vulns.countP (fun v => v.vulnerability_type == t)
    by_swc := fun sid => vulns.countP (fun v => v.swc_id == some sid) }

/-- `VulnHunterPipeline.analyze` (placeholder implementation in
`src/vulnhunter/core/pipeline.py`): returns a fresh completed report
with all defaults. -/
def pipelineAnalyze : AnalysisReport :=
  { contract_name := "Placeholder", status := .completed }

/-- The mock report built by `run_analysis_with_progress` in
`src/vulnhunter/cli/main.py`. -/
def cliMockReport : AnalysisReport :=
  { contract_name := "MockContract", status := .completed }

/-- The reports the repository actually constructs: the default
construction of `AnalysisReport` (pydantic defaults plus a contract
name and status) as used by the pipeline and the CLI.  No operation in
`src/` mutates `vulnerabilities` or `metrics` after construction. -/
inductive ReportProduced : AnalysisReport → Prop where
  | defaults (name : String) (st : AnalysisStatus) :
      ReportProduced { contract_name := name, status := st }

/-! ## Helper lemmas -/

/-- The severity order of the `SeverityLevel` enumeration (the spec's
"totally ordered for ranking"). -/
def severityRank : SeverityLevel → Nat
  | .info => 0
  | .low => 1
  | .medium => 2
  | .high => 3
  | .critical => 4

lemma severityWeight_nonneg (s : SeverityLevel) : 0 ≤ severityWeight s := by
  cases s <;> norm_num [severityWeight]

lemma severityWeight_mono : ∀ a b : SeverityLevel,
    severityRank a ≤ severityRank b → severityWeight a ≤ severityWeight b := by
  intro a b h
  cases a <;> cases b <;> norm_num [severityRank, severityWeight] at h ⊢

lemma riskScore_of_ne_nil {vulns : List Vulnerability} (h : vulns ≠ []) :
    calculateRiskScore vulns =
      min 10 ((vulns.map (fun v => severityWeight v.severity * v.confidence)).sum /
        (vulns.length : ℚ)) := by
  have hlen : (0 : ℚ) < (vulns.length : ℚ) := by
    exact_mod_cast List.length_pos.mpr h
  have h10 : (0 : ℚ) < (vulns.length : ℚ) * 10 := by positivity
  have hne : vulns.isEmpty = false := List.isEmpty_eq_false.mpr h
  unfold calculateRiskScore
  rw [hne]
  simp only [Bool.false_eq_true, if_false, if_pos h10]
  rw [div_mul_eq_mul_div, mul_div_mul_right _ _ (by norm_num : (10 : ℚ) ≠ 0)]

lemma riskScore_nonneg {vulns : List Vulnerability}
    (hconf : ∀ v ∈ vulns, 0 ≤ v.confidence) :
    0 ≤ calculateRiskScore vulns := by
  by_cases h : vulns = []
  · subst h; simp [calculateRiskScore]
  · rw [riskScore_of_ne_nil h]
    refine le_min (by norm_num) (div_nonneg ?_ (by positivity))
    refine List.sum_nonneg ?_
    intro x hx
    obtain ⟨v, hv, rfl⟩ := List.mem_map.mp hx
    exact mul_nonneg (severityWeight_nonneg _) (hconf v hv)

lemma riskScore_le_ten (vulns : List Vulnerability) :
    calculateRiskScore vulns ≤ 10 := by
  by_cases h : vulns = []
  · subst h; simp [calculateRiskScore]
  · rw [riskScore_of_ne_nil h]
    exact min_le_left _ _

/-! ## Claims -/

/-- C3: `AnalysisReport.calculate_risk_score` returns 0 when the
vulnerabilities list is empty and otherwise
`min(10, 10 · (Σ weight(severity)·confidence) / (10 · n))` with
weights critical 10, high 7.5, medium 5, low 2.5, info 0.5; under the
data-model invariant `confidence ∈ [0,1]` the result lies in
[0, 10]. -/
theorem claim_C3_risk_score (vulns : List Vulnerability)
    (hconf : ∀ v ∈ vulns, 0 ≤ v.confidence ∧ v.confidence ≤ 1) :
    calculateRiskScore vulns =
      (if vulns = [] then 0
       else min 10 (10 *
         (vulns.map (fun v => severityWeight v.severity * v.confidence)).sum /
         (10 * (vulns.length : ℚ)))) ∧
    (severityWeight .critical = 10 ∧ severityWeight .high = 15 / 2 ∧
     severityWeight .medium = 5 ∧ severityWeight .low = 5 / 2 ∧
     severityWeight .info = 1 / 2) ∧
    0 ≤ calculateRiskScore vulns ∧ calculateRiskScore vulns ≤ 10 := by
  refine ⟨?_, by norm_num [severityWeight], ?_, riskScore_le_ten vulns⟩
  · by_cases h : vulns = []
    · subst h; simp [calculateRiskScore]
    · rw [riskScore_of_ne_nil h, if_neg h,
        mul_div_mul_left _ _ (by norm_num : (10 : ℚ) ≠ 0)]
  · exact riskScore_nonneg (fun v hv => (hconf v hv).1)

/-- A concrete two-finding vulnerability list used as the C3
witness input. -/
def c3SampleVulns : List Vulnerability :=
  [{ title := "a", severity := .critical, confidence := 1,
     vulnerability_type := .reentrancy, swc_id := some "SWC-107" },
   { title := "b", severity := .low, confidence := 1 / 2,
     vulnerability_type := .unknown, swc_id := none }]

/-- Witness for C3 at a concrete two-finding report. -/
theorem claim_C3_risk_score_witness :
    0 ≤ calculateRiskScore c3SampleVulns ∧
    calculateRiskScore c3SampleVulns ≤ 10 :=
  (claim_C3_risk_score c3SampleVulns
    (by intro v hv; fin_cases hv <;> constructor <;> norm_num)).2.2

/-- C4: with a fixed confidence value on all findings, appending a
finding whose severity is at least that of every existing finding
(so in particular a strictly higher-severity finding) never decreases
`calculate_risk_score`. -/
theorem claim_C4_risk_monotone (vulns : List Vulnerability)
    (v : Vulnerability) (hc : 0 ≤ v.confidence)
    (hfix : ∀ u ∈ vulns, u.confidence = v.confidence)
    (hsev : ∀ u ∈ vulns, severityRank u.severity ≤ severityRank v.severity) :
    calculateRiskScore vulns ≤ calculateRiskScore (vulns ++ [v]) := by
  by_cases hnil : vulns = []
  · subst hnil
    simp only [calculateRiskScore, List.isEmpty_nil, if_pos]
    simp only [List.nil_append]
    exact riskScore_nonneg (by
      intro u hu
      rcases List.mem_singleton.mp hu with rfl
      exact hc)
  · have happ : vulns ++ [v] ≠ [] := by simp
    rw [riskScore_of_ne_nil hnil, riskScore_of_ne_nil happ]
    refine min_le_min le_rfl ?_
    set f : Vulnerability → ℚ :=
      fun u => severityWeight u.severity * u.confidence with hf
    have hn : (0 : ℚ) < (vulns.length : ℚ) := by
      exact_mod_cast List.length_pos.mpr hnil
    have hn1 : (0 : ℚ) < ((vulns ++ [v]).length : ℚ) := by
      exact_mod_cast List.length_pos.mpr happ
    have hbound : ((vulns.map f).sum : ℚ) ≤ (vulns.length : ℚ) * f v := by
      have := List.sum_le_card_nsmul (vulns.map f) (f v) (by
        intro x hx
        obtain ⟨u, hu, rfl⟩ := List.mem_map.mp hx
        have hw := severityWeight_mono u.severity v.severity (hsev u hu)
        calc f u = severityWeight u.severity * v.confidence := by
              rw [hf]; simp only []; rw [hfix u hu]
          _ ≤ severityWeight v.severity * v.confidence :=
              mul_le_mul_of_nonneg_right hw hc
          _ = f v := rfl)
      simpa [nsmul_eq_mul] using this
    rw [div_le_div_iff₀ hn hn1]
    have hsum : ((vulns ++ [v]).map f).sum = (vulns.map f).sum + f v := by
      simp
    have hlen : (((vulns ++ [v]).length : ℚ)) = (vulns.length : ℚ) + 1 := by
      push_cast [List.length_append, List.length_singleton]
      ring
    rw [hsum, hlen]
    have hfv : 0 ≤ f v := mul_nonneg (severityWeight_nonneg _) hc
    nlinarith [hbound]

/-- Witness for C4: appending a critical finding to a one-medium-finding
report with confidence 1 throughout. -/
theorem claim_C4_risk_monotone_witness :
    calculateRiskScore
        [{ title := "m", severity := .medium, confidence := 1,
           vulnerability_type := .unknown, swc_id := none }] ≤
      calculateRiskScore
        ([{ title := "m", severity := .medium, confidence := 1,
            vulnerability_type := .unknown, swc_id := none }] ++
         [{ title := "c", severity := .critical, confidence := 1,
            vulnerability_type := .reentrancy, swc_id := none }]) :=
  claim_C4_risk_monotone _ _ (by norm_num)
    (by intro u hu; fin_cases hu <;> rfl)
    (by intro u hu; fin_cases hu <;> norm_num [severityRank])

/-- C5: every `AnalysisReport` the repository constructs satisfies
`metrics.total_vulnerabilities = len(vulnerabilities)`; the only
report-producing operations in `src/` (the pipeline's placeholder
`analyze` and the CLI mock) build reports with the pydantic defaults,
and no operation in `src/` mutates a report afterwards, so the
equality is preserved. -/
theorem claim_C5_metrics_invariant (r : AnalysisReport)
    (h : ReportProduced r) :
    r.metrics.total_vulnerabilities = r.vulnerabilities.length := by
  cases h with
  | defaults name st => rfl

/-- Witness for C5 at the report `VulnHunterPipeline.analyze` returns. -/
theorem claim_C5_metrics_invariant_witness :
    pipelineAnalyze.metrics.total_vulnerabilities =
      pipelineAnalyze.vulnerabilities.length :=
  claim_C5_metrics_invariant pipelineAnalyze
    (.defaults "Placeholder" .completed)

/-- C6: aggregation is order-independent - permuting the merged
finding list leaves both the computed `AnalysisMetrics` and
`calculate_risk_score` unchanged. -/
theorem claim_C6_order_independent (l l' : List Vulnerability)
    (h : l.Perm l') :
    calculateRiskScore l = calculateRiskScore l' ∧
    computeMetrics l = computeMetrics l' := by
  constructor
  · by_cases hnil : l = []
    · subst hnil
      have : l' = [] := h.symm.eq_nil
      subst this
      rfl
    · have hnil' : l' ≠ [] := fun he => hnil (he ▸ h).eq_nil
      rw [riskScore_of_ne_nil hnil, riskScore_of_ne_nil hnil',
        h.length_eq, (h.map _).sum_eq]
  · simp only [computeMetrics, AnalysisMetrics.mk.injEq]
    exact ⟨h.length_eq,
      funext fun s => h.countP_eq _,
      funext fun t => h.countP_eq _,
      funext fun sid => h.countP_eq _⟩

/-- Witness for C6 at a concrete two-element permutation (explicit
`Perm.swap`). -/
theorem claim_C6_order_independent_witness :
    calculateRiskScore
        [{ title := "a", severity := .high, confidence := 1,
           vulnerability_type := .reentrancy, swc_id := some "SWC-107" },
         { title := "b", severity := .info, confidence := 0,
           vulnerability_type := .unknown, swc_id := none }] =
      calculateRiskScore
        [{ title := "b", severity := .info, confidence := 0,
           vulnerability_type := .unknown, swc_id := none },
         { title := "a", severity := .high, confidence := 1,
           vulnerability_type := .reentrancy, swc_id := some "SWC-107" }] ∧
    computeMetrics
        [{ title := "a", severity := .high, confidence := 1,
           vulnerability_type := .reentrancy, swc_id := some "SWC-107" },
         { title := "b", severity := .info, confidence := 0,
           vulnerability_type := .unknown, swc_id := none }] =
      computeMetrics
        [{ title := "b", severity := .info, confidence := 0,
           vulnerability_type := .unknown, swc_id := none },
         { title := "a", severity := .high, confidence := 1,
           vulnerability_type := .reentrancy, swc_id := some "SWC-107" }] :=
  claim_C6_order_independent _ _ (List.Perm.swap _ _ _)

/-- A dict issue is well formed for the Mythril mapping stage when its
per-issue finding construction does not raise. -/
def mythrilIssueWF (i : Json) : Bool :=
  match i with
  | .obj f => (mythrilFindingOfIssue f).isSome
  | _ => false

lemma optionMapList_isSome_length {α β : Type} {f : α → Option β} :
    ∀ l : List α, (∀ x ∈ l, (f x).isSome) →
      ∃ fs, optionMapList f l = some fs ∧ fs.length = l.length := by
  intro l h
  induction l with
  | nil => exact ⟨[], rfl, rfl⟩
  | cons a t ih =>
    obtain ⟨fs, hfs, hlen⟩ := ih (fun x hx => h x (List.mem_cons_of_mem _ hx))
    obtain ⟨b, hb⟩ :=
      Option.isSome_iff_exists.mp (h a (List.mem_cons_self _ _))
    exact ⟨b :: fs, by simp [optionMapList, hb, hfs], by simp [hlen]⟩

lemma mythrilFindingsOfIssues_length (issues : List Json)
    (h : ∀ i ∈ issues, mythrilIssueWF i = true) :
    ∃ gs, mythrilFindingsOfIssues issues = some gs ∧
      gs.length = issues.length := by
  induction issues with
  | nil => exact ⟨[], rfl, rfl⟩
  | cons i t ih =>
    obtain ⟨gs, hgs, hlen⟩ := ih (fun x hx => h x (List.mem_cons_of_mem _ hx))
    have hi := h i (List.mem_cons_self _ _)
    cases i with
    | obj f =>
      obtain ⟨fd, hfd⟩ :=
        Option.isSome_iff_exists.mp (by simpa [mythrilIssueWF] using hi)
      exact ⟨fd :: gs, by simp [mythrilFindingsOfIssues, hfd, hgs],
        by simp [hlen]⟩
    | null => simp [mythrilIssueWF] at hi
    | bool b => simp [mythrilIssueWF] at hi
    | num n => simp [mythrilIssueWF] at hi
    | str s => simp [mythrilIssueWF] at hi
    | arr l => simp [mythrilIssueWF] at hi

lemma slither_unmapped_unknown (fields : List (String × Json)) (fd : Finding)
    (hfd : slitherFindingOfDetector (.obj fields) = some fd)
    (htab : slitherDetectorTable
      ((jStrField fields "check" "unknown").getD "unknown") = none) :
    fd.vulnerability_type = .unknown := by
  simp only [slitherFindingOfDetector] at hfd
  split at hfd
  · rename_i check impact conf desc title loc hck himp hcf hds htl hlc
    rw [hck] at htab
    simp only [Option.getD_some] at htab
    cases hfd
    simp [htab]
  · cases hfd

lemma mythril_unmapped_unknown (f : List (String × Json)) (fd : Finding)
    (s : String) (hfd : mythrilFindingOfIssue f = some fd)
    (hswc : mythrilSwcOf f = .str s) (htab : mythrilSwcTable s = none) :
    fd.vulnerability_type = .unknown := by
  simp only [mythrilFindingOfIssue, hswc] at hfd
  split at hfd
  · rename_i title desc sev fp code heq
    split at hfd
    · cases hfd
    · rename_i loc hloc
      cases hfd
      simp [htab]
  · cases hfd

/-- C7: the category-mapping stage preserves finding count - one
`Finding` per parsed tool issue for both cited adapters - and an issue
whose tool-specific category is absent from the adapter's fixed table
yields `vulnerability_type = unknown` rather than being dropped. -/
theorem claim_C7_mapping_count (detectors issues : List Json)
    (hs : ∀ d ∈ detectors, (slitherFindingOfDetector d).isSome)
    (hm : ∀ i ∈ issues, mythrilIssueWF i = true) :
    (∃ fs, optionMapList slitherFindingOfDetector detectors = some fs ∧
       fs.length = detectors.length) ∧
    (∃ gs, mythrilFindingsOfIssues issues = some gs ∧
       gs.length = issues.length) ∧
    (∀ fields fd, slitherFindingOfDetector (.obj fields) = some fd →
       slitherDetectorTable
         ((jStrField fields "check" "unknown").getD "unknown") = none →
       fd.vulnerability_type = .unknown) ∧
    (∀ f fd s, mythrilFindingOfIssue f = some fd →
       mythrilSwcOf f = .str s → mythrilSwcTable s = none →
       fd.vulnerability_type = .unknown) :=
  ⟨optionMapList_isSome_length detectors hs,
   mythrilFindingsOfIssues_length issues hm,
   fun fields fd hfd htab => slither_unmapped_unknown fields fd hfd htab,
   fun f fd s hfd hswc htab => mythril_unmapped_unknown f fd s hfd hswc htab⟩

/-- A concrete Slither detector list with an unmapped check id. -/
def c7Detectors : List Json :=
  [.obj [("check", .str "weird-check"), ("impact", .str "Low")]]

/-- A concrete Mythril issue list with an unmapped SWC id. -/
def c7Issues : List Json :=
  [.obj [("swc-id", .str "SWC-999"), ("title", .str "Odd")]]

/-- Witness for C7 at one unmapped detector and one unmapped issue. -/
theorem claim_C7_mapping_count_witness :
    (∃ fs, optionMapList slitherFindingOfDetector c7Detectors = some fs ∧
       fs.length = c7Detectors.length) ∧
    (∃ gs, mythrilFindingsOfIssues c7Issues = some gs ∧
       gs.length = c7Issues.length) ∧
    (∀ fields fd, slitherFindingOfDetector (.obj fields) = some fd →
       slitherDetectorTable
         ((jStrField fields "check" "unknown").getD "unknown") = none →
       fd.vulnerability_type = .unknown) ∧
    (∀ f fd s, mythrilFindingOfIssue f = some fd →
       mythrilSwcOf f = .str s → mythrilSwcTable s = none →
       fd.vulnerability_type = .unknown) :=
  claim_C7_mapping_count c7Detectors c7Issues (by decide) (by decide)

set_option maxRecDepth 100000

/-- C1 counterexample: a run whose stdout is entirely unparseable (no
JSON, no `success` or `detectors` marker) with exit code 1 is
classified `success` by `SlitherWrapper.analyze` - the
`json.JSONDecodeError` handler of `_parse_wrapper_output` returns `[]`
instead of `None`, so the error branch is never reached - refuting the
claimed `error` classification. -/
theorem claim_C1_counterexample :
    parseJson "garbage" = none ∧
    containsSub "garbage" "success" = false ∧
    containsSub "garbage" "detectors" = false ∧
    (slitherAnalyze (.ok "garbage" "boom" 1)).status = .success ∧
    ¬ (slitherAnalyze (.ok "garbage" "boom" 1)).status = .error := by
  have hst : (slitherAnalyze (.ok "garbage" "boom" 1)).status = .success := rfl
  exact ⟨rfl, rfl, rfl, hst, by rw [hst]; decide⟩

/-- C1 (amended): for every adapter, a completed run whose output
fails to parse as wrapper JSON - regardless of exit code - yields
`status = success` with `findings = []`: the wrapper-level parse
failure degrades to empty findings and is classified success, not
error. -/
theorem claim_C1_unparseable_classified_success (stdout stderr : String)
    (rc : Int) (mname ename : String)
    (hparse : parseJson stdout = none) :
    ((slitherAnalyze (.ok stdout stderr rc)).status = .success ∧
     (slitherAnalyze (.ok stdout stderr rc)).findings = []) ∧
    ((mythrilAnalyze (.file mname) (.ok stdout stderr rc)).status = .success ∧
     (mythrilAnalyze (.file mname) (.ok stdout stderr rc)).findings = []) ∧
    ((echidnaAnalyze (.file ename) (.ok stdout stderr rc)).status = .success ∧
     (echidnaAnalyze (.file ename) (.ok stdout stderr rc)).findings = []) := by
  refine ⟨⟨?_, ?_⟩, ⟨?_, ?_⟩, ⟨?_, ?_⟩⟩ <;>
    simp [slitherAnalyze, mythrilAnalyze, echidnaAnalyze,
      mythrilClassify, echidnaClassify,
      slitherParseWrapperOutput, mythrilParseWrapperOutput,
      echidnaParseWrapperOutput, hparse]

/-- Witness for the amended C1 at a concrete unparseable run. -/
theorem claim_C1_unparseable_witness :
    parseJson "garbage" = none ∧
    (((slitherAnalyze (.ok "garbage" "boom" 2)).status = .success ∧
      (slitherAnalyze (.ok "garbage" "boom" 2)).findings = []) ∧
     ((mythrilAnalyze (.file "a.sol")
        (.ok "garbage" "boom" 2)).status = .success ∧
      (mythrilAnalyze (.file "a.sol")
        (.ok "garbage" "boom" 2)).findings = []) ∧
     ((echidnaAnalyze (.file "TestX.sol")
        (.ok "garbage" "boom" 2)).status = .success ∧
      (echidnaAnalyze (.file "TestX.sol")
        (.ok "garbage" "boom" 2)).findings = [])) :=
  ⟨rfl, claim_C1_unparseable_classified_success "garbage" "boom" 2
    "a.sol" "TestX.sol" rfl⟩

/-- JSON string escaping, used to embed the inner Slither document in
the wrapper envelope of the C2 input. -/
def jsonEscapeChar (c : Char) : String :=
  if c == '"' then "\\\"" else if c == '\\' then "\\\\" else String.mk [c]

/-- JSON string escaping over a whole string. -/
def jsonEscape (s : String) : String :=
  String.join (s.toList.map jsonEscapeChar)

/-- The Slither JSON document of a run that found one reentrancy
detector result. -/
def c2Inner : String :=
  "\x7b\"success\": true, \"results\": \x7b\"detectors\": " ++
  "[\x7b\"check\": \"reentrancy-eth\"\x7d]\x7d\x7d"

/-- The sandbox wrapper envelope around `c2Inner`, as
`slither-wrapper.py` emits for a non-zero Slither exit with output
(`status: success`). -/
def c2Outer : String :=
  "\x7b\"status\": \"success\", \"returncode\": 1, \"stdout\": \"" ++
  jsonEscape c2Inner ++ "\"\x7d"

/-- C2: evaluation of `SlitherWrapper.analyze` at a non-zero-exit run
whose output parses into one well-formed finding.  The wrapper
envelope decodes, the inner Slither document decodes to one detector
entry that the mapping stage would turn into a `Finding`, and the run
is classified `success` (never `error`) - but the findings list comes
back EMPTY: `_parse_output` re-unwraps its input as wrapper JSON a
second time, so the detector is dropped instead of attached. -/
theorem claim_C2_slither_drops_findings :
    parseJson c2Outer = some (.obj
      [("status", .str "success"), ("returncode", .num 1),
       ("stdout", .str c2Inner)]) ∧
    parseJson c2Inner = some (.obj
      [("success", .bool true),
       ("results", .obj [("detectors",
         .arr [.obj [("check", .str "reentrancy-eth")]])])]) ∧
    (slitherFindingOfDetector
      (.obj [("check", .str "reentrancy-eth")])).isSome = true ∧
    (slitherAnalyze (.ok c2Outer "" 1)).status = .success ∧
    (slitherAnalyze (.ok c2Outer "" 1)).status ≠ .error ∧
    (slitherAnalyze (.ok c2Outer "" 1)).findings = [] := by
  have hst : (slitherAnalyze (.ok c2Outer "" 1)).status = .success := rfl
  exact ⟨rfl, rfl, rfl, hst, by rw [hst]; decide, rfl⟩

/-- C8: on timeout, `run_in_container` kills the named container and
raises a `TimeoutError` (a constructor distinct from any exit-code
outcome), and every adapter's `analyze` classifies that raised
condition as `status = timeout` with `findings = []`, never success or
error. -/
theorem claim_C8_timeout_path (w : DockerWrapperState) (cp wd : String)
    (net : Bool) (cmd : List String) (msg mname ename : String) :
    ["docker", "kill", w.container_name] ∈
      (runInContainer w cp wd net cmd .timedOut).1 ∧
    (runInContainer w cp wd net cmd .timedOut).2 =
      .timeoutRaised ("Tool " ++ w.tool_name ++ " timed out after " ++
        toString w.timeoutSecs ++ "s") ∧
    (∀ o e rc, (runInContainer w cp wd net cmd .timedOut).2 ≠ .ok o e rc) ∧
    ((slitherAnalyze (.timeoutRaised msg)).status = .timeout ∧
     (slitherAnalyze (.timeoutRaised msg)).findings = []) ∧
    ((mythrilAnalyze (.file mname) (.timeoutRaised msg)).status = .timeout ∧
     (mythrilAnalyze (.file mname) (.timeoutRaised msg)).findings = []) ∧
    ((echidnaAnalyze (.file ename) (.timeoutRaised msg)).status = .timeout ∧
     (echidnaAnalyze (.file ename) (.timeoutRaised msg)).findings = []) := by
  refine ⟨?_, rfl, ?_, ⟨rfl, rfl⟩, ⟨rfl, rfl⟩, ⟨rfl, rfl⟩⟩
  · simp [runInContainer]
  · intro o e rc h
    simp [runInContainer] at h

lemma slitherAnalyze_status_closed (run : RunResult) :
    (slitherAnalyze run).status = .success ∨
    (slitherAnalyze run).status = .timeout ∨
    (slitherAnalyze run).status = .error := by
  cases run with
  | ok o e rc =>
    cases h : slitherParseWrapperOutput o with
    | ret a =>
      cases a with
      | some fs => simp [slitherAnalyze, h]
      | none =>
        simp only [slitherAnalyze, h]
        split <;> simp
    | exc m => simp [slitherAnalyze, h]
  | timeoutRaised m => simp [slitherAnalyze]
  | otherRaised m => simp [slitherAnalyze]

lemma mythrilClassify_status_closed (run : RunResult) :
    (mythrilClassify run).status = .success ∨
    (mythrilClassify run).status = .timeout ∨
    (mythrilClassify run).status = .error := by
  cases run with
  | ok o e rc =>
    cases h : mythrilParseWrapperOutput o with
    | ret a =>
      cases a with
      | some fs => simp [mythrilClassify, h]
      | none =>
        simp only [mythrilClassify, h]
        split <;> simp
    | exc m => simp [mythrilClassify, h]
  | timeoutRaised m => simp [mythrilClassify]
  | otherRaised m => simp [mythrilClassify]

lemma echidnaClassify_status_closed (run : RunResult) :
    (echidnaClassify run).status = .success ∨
    (echidnaClassify run).status = .timeout ∨
    (echidnaClassify run).status = .error := by
  cases run with
  | ok o e rc =>
    cases h : echidnaParseWrapperOutput o with
    | ret a =>
      cases a with
      | some fs => simp [echidnaClassify, h]
      | none => simp [echidnaClassify, h]
    | exc m => simp [echidnaClassify, h]
  | timeoutRaised m => simp [echidnaClassify]
  | otherRaised m => simp [echidnaClassify]

lemma mythrilAnalyze_status_closed (t : TargetPath) (run : RunResult) :
    (mythrilAnalyze t run).status = .success ∨
    (mythrilAnalyze t run).status = .timeout ∨
    (mythrilAnalyze t run).status = .error := by
  cases t with
  | file n => exact mythrilClassify_status_closed run
  | dir l =>
    cases l with
    | nil => simp [mythrilAnalyze]
    | cons a as => exact mythrilClassify_status_closed run

lemma echidnaAnalyze_status_closed (t : TargetPath) (run : RunResult) :
    (echidnaAnalyze t run).status = .success ∨
    (echidnaAnalyze t run).status = .timeout ∨
    (echidnaAnalyze t run).status = .error := by
  cases t with
  | file n => exact echidnaClassify_status_closed run
  | dir l =>
    cases l with
    | nil => simp [echidnaAnalyze]
    | cons a as => exact echidnaClassify_status_closed run

/-- C9: for every adapter and every input, the status of the
`ToolResult` returned by `analyze` lies in {success, timeout, error};
the `FAILED` member of `ToolStatus` is never produced. -/
theorem claim_C9_no_failed_status (t u : TargetPath) (run : RunResult) :
    ((slitherAnalyze run).status = .success ∨
     (slitherAnalyze run).status = .timeout ∨
     (slitherAnalyze run).status = .error) ∧
    (slitherAnalyze run).status ≠ .failed ∧
    ((mythrilAnalyze t run).status = .success ∨
     (mythrilAnalyze t run).status = .timeout ∨
     (mythrilAnalyze t run).status = .error) ∧
    (mythrilAnalyze t run).status ≠ .failed ∧
    ((echidnaAnalyze u run).status = .success ∨
     (echidnaAnalyze u run).status = .timeout ∨
     (echidnaAnalyze u run).status = .error) ∧
    (echidnaAnalyze u run).status ≠ .failed := by
  have hs := slitherAnalyze_status_closed run
  have hm := mythrilAnalyze_status_closed t run
  have he := echidnaAnalyze_status_closed u run
  refine ⟨hs, ?_, hm, ?_, he, ?_⟩
  · rcases hs with h | h | h <;> rw [h] <;> decide
  · rcases hm with h | h | h <;> rw [h] <;> decide
  · rcases he with h | h | h <;> rw [h] <;> decide

/-- One abstract step against a `DockerToolWrapper`: the operations of
the adapter interface that touch (or could touch) the wrapper state. -/
inductive WrapperOp where
  | initializeOp
  | runContainerOp (contractPath workingDir : String) (networkEnabled : Bool)
      (command : List String) (exec : ExecOutcome)
  | analyzeOp (target : TargetPath) (run : RunResult)
  | cleanupOp

/-- State effect of one operation: `initialize` only sets
`_initialized`; `run_in_container` and `analyze` never assign
`_container_id` (the container is started with `--rm` under a name,
no id is captured); `cleanup` resets `_container_id` when set. -/
def applyOp (w : DockerWrapperState) : WrapperOp → DockerWrapperState
  | .initializeOp => wrapperInitialize w
  | .runContainerOp _ _ _ _ _ => w
  | .analyzeOp _ _ => w
  | .cleanupOp => (wrapperCleanup w).2

/-- Fold a sequence of operations over the wrapper state. -/
def applyOps (w : DockerWrapperState) (ops : List WrapperOp) :
    DockerWrapperState :=
  ops.foldl applyOp w

lemma applyOp_container_id (w : DockerWrapperState) (op : WrapperOp)
    (h : w.container_id = none) : (applyOp w op).container_id = none := by
  cases op <;> simp [applyOp, wrapperInitialize, wrapperCleanup, h]

lemma applyOps_container_id (ops : List WrapperOp) :
    ∀ w : DockerWrapperState, w.container_id = none →
      (applyOps w ops).container_id = none := by
  induction ops with
  | nil => intro w h; exact h
  | cons op t ih =>
    intro w h
    exact ih (applyOp w op) (applyOp_container_id w op h)

/-- C10: `_container_id` stays `None` across every sequence of
`initialize` / `run_in_container` / `analyze` / `cleanup` operations
from construction onward, so `cleanup()` issues no docker stop/rm
commands and leaves the wrapper state unchanged. -/
theorem claim_C10_container_id_none (tn di uid : String)
    (ops : List WrapperOp) :
    (applyOps (mkDockerWrapper tn di uid) ops).container_id = none ∧
    wrapperCleanup (applyOps (mkDockerWrapper tn di uid) ops) =
      ([], applyOps (mkDockerWrapper tn di uid) ops) := by
  have h := applyOps_container_id ops (mkDockerWrapper tn di uid) rfl
  exact ⟨h, by simp [wrapperCleanup, h]⟩

end VulnHunter
